import Mathlib

/-!
Verification of the keyboard-to-action mapper in
`src/python/social_bot/keybo_control.py` (class `KeyboardControl`).

The control state is embedded as a Lean structure over `ℚ` (the spec's
properties are about exact arithmetic on the decimal constants of the
source).  The Python 3-element list `_gripper_pos` always has exactly three
components, so it is embedded as a triple `ℚ × ℚ × ℚ`; component `[i]` is
the `i`-th projection.  The nondeterministic input `_get_key` (one pending
keystroke or nothing) is passed to `get_agent_actions` as an explicit
`Option Char` argument, and the method's mutation of `self` is made
explicit: `get_agent_actions` returns the produced action vector together
with the successor state.  The `logging.info` call in
`_convert_to_agent_action` is modelled by `convert_diagnostics`, giving the
list of log lines the call emits.  Leading underscores of the Python names
are dropped.
-/

/-- Control state of the Python class `KeyboardControl` (its `self._*`
attributes, set up in `__init__`, lines 32-40). -/
structure KeyboardControl where
  speed : ℚ
  turning : ℚ
  gripper_pos : ℚ × ℚ × ℚ
  gripper_open : Bool
  wheel_step : ℚ
  gripper_step : ℚ
  speed_decay : ℚ
  turning_decay : ℚ
  deriving DecidableEq

namespace KeyboardControl

/-- State built by `KeyboardControl.__init__` (lines 32-40). -/
def init : KeyboardControl where
  speed := 0
  turning := 0
  gripper_pos := (0, 0, 0)
  gripper_open := true
  wheel_step := 0.5
  gripper_step := 0.02
  speed_decay := 0.9
  turning_decay := 0.5

/-- The method `reset` (lines 42-46). -/
def reset (s : KeyboardControl) : KeyboardControl :=
  { s with gripper_pos := (0, 0, 0), gripper_open := true, speed := 0, turning := 0 }

/-- Decay applied by `get_agent_actions` before the key effect (lines 69-70):
`self._speed *= self._speed_decay; self._turning *= self._turning_decay`. -/
def decayed (s : KeyboardControl) : KeyboardControl :=
  { s with speed := s.speed * s.speed_decay, turning := s.turning * s.turning_decay }

/-- Key effect of `get_agent_actions` (lines 72-98), the `elif` chain on the
sampled key, applied to the already-decayed state. `key = none` is a call
during which no key was pending; an unrecognized key falls through the chain
and leaves the state unchanged. -/
def apply_key (s : KeyboardControl) (key : Option Char) : KeyboardControl :=
  if key = some 'w' then
    { s with speed := if s.speed < -0.01 then 0 else s.speed + s.wheel_step }
  else if key = some 's' then
    { s with speed := if s.speed > 0.01 then 0 else s.speed - s.wheel_step }
  else if key = some 'a' then
    { s with turning := if s.turning > 0.01 then 0 else s.turning - s.wheel_step }
  else if key = some 'd' then
    { s with turning := if s.turning < -0.01 then 0 else s.turning + s.wheel_step }
  else if key = some 'i' then
    { s with gripper_pos :=
        (s.gripper_pos.1 - s.gripper_step, s.gripper_pos.2.1, s.gripper_pos.2.2) }
  else if key = some 'k' then
    { s with gripper_pos :=
        (s.gripper_pos.1 + s.gripper_step, s.gripper_pos.2.1, s.gripper_pos.2.2) }
  else if key = some 'j' then
    { s with gripper_pos :=
        (s.gripper_pos.1, s.gripper_pos.2.1 - s.gripper_step, s.gripper_pos.2.2) }
  else if key = some 'l' then
    { s with gripper_pos :=
        (s.gripper_pos.1, s.gripper_pos.2.1 + s.gripper_step, s.gripper_pos.2.2) }
  else if key = some 'e' then
    { s with gripper_open := !s.gripper_open }
  else if key = some '+' then
    { s with wheel_step := s.wheel_step * 1.5, gripper_step := s.gripper_step * 1.5 }
  else if key = some '-' then
    { s with wheel_step := s.wheel_step * 0.7, gripper_step := s.gripper_step * 0.7 }
  else s

/-- State mutation performed by one `get_agent_actions` call (lines 68-98):
decay, then the sampled key's effect. -/
def step_state (s0 : KeyboardControl) (key : Option Char) : KeyboardControl :=
  apply_key (decayed s0) key

/-- The method `_to_diff_drive_action` (lines 114-118). -/
def to_diff_drive_action (s : KeyboardControl) : List ℚ :=
  let left_wheel_joint := s.speed + s.turning
  let right_wheel_joint := s.speed - s.turning
  [left_wheel_joint, right_wheel_joint]

/-- The method `_to_youbot_action` (lines 120-147). -/
def to_youbot_action (s : KeyboardControl) : List ℚ :=
  let wheel_joint_bl := s.speed + s.turning
  let wheel_joint_br := s.speed - s.turning
  let wheel_joint_fl := s.speed + s.turning
  let wheel_joint_fr := s.speed - s.turning
  let gripper_joint : ℚ := if s.gripper_open then 0.5 else -0.5
  [0, 0.5 + s.gripper_pos.2.1, 0.3, s.gripper_pos.1 - 0.1, 0.2, 0,
   0, gripper_joint, gripper_joint,
   wheel_joint_bl, wheel_joint_br, wheel_joint_fl, wheel_joint_fr]

/-- The method `_to_pr2_action` (lines 149-158). -/
def to_pr2_action (s : KeyboardControl) : List ℚ :=
  let wheel_joint_bl := s.speed + s.turning
  let wheel_joint_br := s.speed - s.turning
  let wheel_joint_fl := s.speed + s.turning
  let wheel_joint_fr := s.speed - s.turning
  [wheel_joint_fl, wheel_joint_fl, wheel_joint_fr, wheel_joint_fr,
   wheel_joint_bl, wheel_joint_bl, wheel_joint_br, wheel_joint_br]

/-- The method `_convert_to_agent_action` (lines 102-112): dispatch on the
agent type string; the unsupported branch returns the empty list. -/
def convert_to_agent_action (s : KeyboardControl) (agent_type : String) : List ℚ :=
  if agent_type = "pioneer2dx_noplugin" ∨ agent_type = "turtlebot" then
    to_diff_drive_action s
  else if agent_type = "youbot_noplugin" then
    to_youbot_action s
  else if agent_type = "pr2_noplugin" then
    to_pr2_action s
  else
    []

/-- Log lines emitted by `_convert_to_agent_action` (its `logging.info` call
on line 111): one informational line in the unsupported branch, none in the
supported branches. -/
def convert_diagnostics (agent_type : String) : List String :=
  if agent_type = "pioneer2dx_noplugin" ∨ agent_type = "turtlebot" then []
  else if agent_type = "youbot_noplugin" then []
  else if agent_type = "pr2_noplugin" then []
  else ["agent type not supported yet: " ++ agent_type]

/-- The method `get_agent_actions` (lines 61-100): sample a key (here the
`key` argument), mutate the state, and project the new state into the action
vector.  Returns the action vector together with the successor state. -/
def get_agent_actions (s : KeyboardControl) (key : Option Char) (agent_type : String) :
    List ℚ × KeyboardControl :=
  let s2 := step_state s key
  (convert_to_agent_action s2 agent_type, s2)

end KeyboardControl

open KeyboardControl

/-- One `get_agent_actions` call during which no key was pending. -/
def noKeyStep (s : KeyboardControl) : KeyboardControl := step_state s none

/-! Helper lemmas: projections of `get_agent_actions`, the per-key shape of
`step_state`, and frame facts used by several claims. -/

theorem gaa_fst (s : KeyboardControl) (key : Option Char) (t : String) :
    (get_agent_actions s key t).1 = convert_to_agent_action (step_state s key) t := rfl

theorem gaa_snd (s : KeyboardControl) (key : Option Char) (t : String) :
    (get_agent_actions s key t).2 = step_state s key := rfl

theorem convert_pioneer (s : KeyboardControl) :
    convert_to_agent_action s "pioneer2dx_noplugin" =
      [s.speed + s.turning, s.speed - s.turning] := rfl

theorem convert_turtlebot (s : KeyboardControl) :
    convert_to_agent_action s "turtlebot" =
      [s.speed + s.turning, s.speed - s.turning] := rfl

theorem convert_youbot (s : KeyboardControl) :
    convert_to_agent_action s "youbot_noplugin" =
      [0, 0.5 + s.gripper_pos.2.1, 0.3, s.gripper_pos.1 - 0.1, 0.2, 0,
       0, if s.gripper_open then 0.5 else -0.5, if s.gripper_open then 0.5 else -0.5,
       s.speed + s.turning, s.speed - s.turning,
       s.speed + s.turning, s.speed - s.turning] := rfl

theorem convert_pr2 (s : KeyboardControl) :
    convert_to_agent_action s "pr2_noplugin" =
      [s.speed + s.turning, s.speed + s.turning, s.speed - s.turning, s.speed - s.turning,
       s.speed + s.turning, s.speed + s.turning, s.speed - s.turning, s.speed - s.turning] := rfl

theorem step_state_w_speed (s : KeyboardControl) :
    (step_state s (some 'w')).speed =
      if s.speed * s.speed_decay < -0.01 then 0
      else s.speed * s.speed_decay + s.wheel_step := rfl

theorem step_state_w_turning (s : KeyboardControl) :
    (step_state s (some 'w')).turning = s.turning * s.turning_decay := rfl

theorem step_state_w_speed_decay (s : KeyboardControl) :
    (step_state s (some 'w')).speed_decay = s.speed_decay := rfl

theorem step_state_w_turning_decay (s : KeyboardControl) :
    (step_state s (some 'w')).turning_decay = s.turning_decay := rfl

theorem step_state_none_speed (s : KeyboardControl) :
    (step_state s none).speed = s.speed * s.speed_decay := rfl

theorem step_state_none_turning (s : KeyboardControl) :
    (step_state s none).turning = s.turning * s.turning_decay := rfl

theorem step_state_plus_speed (s : KeyboardControl) :
    (step_state s (some '+')).speed = s.speed * s.speed_decay := rfl

theorem step_state_plus_speed_decay (s : KeyboardControl) :
    (step_state s (some '+')).speed_decay = s.speed_decay := rfl

theorem apply_key_other (s : KeyboardControl) (c : Char)
    (hw : c ≠ 'w') (hs : c ≠ 's') (ha : c ≠ 'a') (hd : c ≠ 'd') (hi : c ≠ 'i')
    (hk : c ≠ 'k') (hj : c ≠ 'j') (hl : c ≠ 'l') (he : c ≠ 'e') (hp : c ≠ '+')
    (hm : c ≠ '-') :
    apply_key s (some c) = s := by
  unfold apply_key
  rw [if_neg (fun h => hw (Option.some.inj h)), if_neg (fun h => hs (Option.some.inj h)),
      if_neg (fun h => ha (Option.some.inj h)), if_neg (fun h => hd (Option.some.inj h)),
      if_neg (fun h => hi (Option.some.inj h)), if_neg (fun h => hk (Option.some.inj h)),
      if_neg (fun h => hj (Option.some.inj h)), if_neg (fun h => hl (Option.some.inj h)),
      if_neg (fun h => he (Option.some.inj h)), if_neg (fun h => hp (Option.some.inj h)),
      if_neg (fun h => hm (Option.some.inj h))]

theorem apply_key_gp2 (s : KeyboardControl) (key : Option Char) :
    (apply_key s key).gripper_pos.2.2 = s.gripper_pos.2.2 := by
  rcases key with _ | c
  · rfl
  rcases eq_or_ne c 'w' with h | hw
  · subst h; rfl
  rcases eq_or_ne c 's' with h | hs
  · subst h; rfl
  rcases eq_or_ne c 'a' with h | ha
  · subst h; rfl
  rcases eq_or_ne c 'd' with h | hd
  · subst h; rfl
  rcases eq_or_ne c 'i' with h | hi
  · subst h; rfl
  rcases eq_or_ne c 'k' with h | hk
  · subst h; rfl
  rcases eq_or_ne c 'j' with h | hj
  · subst h; rfl
  rcases eq_or_ne c 'l' with h | hl
  · subst h; rfl
  rcases eq_or_ne c 'e' with h | he
  · subst h; rfl
  rcases eq_or_ne c '+' with h | hp
  · subst h; rfl
  rcases eq_or_ne c '-' with h | hm
  · subst h; rfl
  rw [apply_key_other s c hw hs ha hd hi hk hj hl he hp hm]

/-! Claim theorems. -/

/-- Initial state with `speed = -0.005` and every other attribute as built by
`__init__` (in particular `speed_decay = 0.9`, `wheel_step = 0.5`). -/
def c1s : KeyboardControl :=
  { speed := -0.005, turning := 0, gripper_pos := (0, 0, 0), gripper_open := true,
    wheel_step := 0.5, gripper_step := 0.02, speed_decay := 0.9, turning_decay := 0.5 }

/-- C1 is false as stated: for the state with `speed = -0.005` (and the
constructor defaults otherwise), a `get_agent_actions` call that samples key
"w" does NOT set `speed` to 0: the decayed speed `-0.0045` is not below the
`-0.01` threshold, so the `else` branch runs and the new speed is the decayed
speed plus `wheel_step`, namely `0.4955`. -/
theorem c1_counterexample :
    c1s.speed = -0.005 ∧
    (get_agent_actions c1s (some 'w') "turtlebot").2.speed = 0.4955 ∧
    (get_agent_actions c1s (some 'w') "turtlebot").2.speed ≠ 0 := by
  refine ⟨rfl, ?_, ?_⟩ <;>
  · rw [gaa_snd, step_state_w_speed]
    norm_num [c1s]

/-- C1 (amended): for a state with `speed = -0.005` and the default
`speed_decay = 0.9`, a `get_agent_actions` call that samples key "w" sets
`speed` to the decayed speed plus `wheel_step` (`0.4955` with the default
`wheel_step = 0.5`), not to 0; the zero-crossing reset to 0 fires only when
the decayed speed is below `-0.01`. -/
theorem c1_amended_zero_crossing (s : KeyboardControl) (t : String)
    (h : s.speed = -0.005) (hd : s.speed_decay = 0.9) :
    (get_agent_actions s (some 'w') t).2.speed = s.speed * s.speed_decay + s.wheel_step ∧
    (s.wheel_step = 0.5 → (get_agent_actions s (some 'w') t).2.speed = 0.4955) := by
  have hmain : (get_agent_actions s (some 'w') t).2.speed =
      s.speed * s.speed_decay + s.wheel_step := by
    rw [gaa_snd, step_state_w_speed,
      if_neg (show ¬ s.speed * s.speed_decay < -0.01 by rw [h, hd]; norm_num)]
  refine ⟨hmain, fun hw => ?_⟩
  rw [hmain, h, hd, hw]
  norm_num

/-- C1 witness: the amended statement evaluated at the concrete state `c1s`. -/
theorem c1_amended_witness :
    (get_agent_actions c1s (some 'w') "turtlebot").2.speed =
      c1s.speed * c1s.speed_decay + c1s.wheel_step ∧
    (get_agent_actions c1s (some 'w') "turtlebot").2.speed = 0.4955 :=
  ⟨(c1_amended_zero_crossing c1s "turtlebot" rfl rfl).1,
   (c1_amended_zero_crossing c1s "turtlebot" rfl rfl).2 rfl⟩

/-- C2: from the freshly constructed state (`wheel_step = 0.5`, `speed = 0`,
`turning = 0`), a call sampling key "w" leaves `speed = 0.5` and returns the
diff-drive action `[0.5, 0.5]` (for both diff-drive agent types), and the
immediately following call with no key pending leaves `speed = 0.45` and
returns `[0.45, 0.45]`. -/
theorem c2_end_to_end :
    (get_agent_actions init (some 'w') "pioneer2dx_noplugin").2.speed = 0.5 ∧
    (get_agent_actions init (some 'w') "pioneer2dx_noplugin").1 = [0.5, 0.5] ∧
    (get_agent_actions init (some 'w') "turtlebot").1 = [0.5, 0.5] ∧
    (get_agent_actions
      (get_agent_actions init (some 'w') "turtlebot").2 none "turtlebot").2.speed = 0.45 ∧
    (get_agent_actions
      (get_agent_actions init (some 'w') "turtlebot").2 none "turtlebot").1 =
      [0.45, 0.45] := by
  have hs1 : (step_state init (some 'w')).speed = 0.5 := by
    rw [step_state_w_speed]
    norm_num [init]
  have ht1 : (step_state init (some 'w')).turning = 0 := by
    rw [step_state_w_turning]
    norm_num [init]
  have hs2 : (step_state (step_state init (some 'w')) none).speed = 0.45 := by
    rw [step_state_none_speed, hs1, step_state_w_speed_decay]
    norm_num [init]
  have ht2 : (step_state (step_state init (some 'w')) none).turning = 0 := by
    rw [step_state_none_turning, ht1, zero_mul]
  refine ⟨?_, ?_, ?_, ?_, ?_⟩
  · rw [gaa_snd]; exact hs1
  · rw [gaa_fst, convert_pioneer, hs1, ht1]; norm_num
  · rw [gaa_fst, convert_turtlebot, hs1, ht1]; norm_num
  · rw [gaa_snd, gaa_snd]; exact hs2
  · rw [gaa_fst, gaa_snd, convert_turtlebot, hs2, ht2]; norm_num

/-- C3: for every state and every sampled key, the action vector returned by
`get_agent_actions` has a length fixed by the agent type alone: 2 for the
diff-drive types, 13 for the youbot type, 8 for the pr2 type. -/
theorem c3_action_lengths (s : KeyboardControl) (key : Option Char) :
    (get_agent_actions s key "pioneer2dx_noplugin").1.length = 2 ∧
    (get_agent_actions s key "turtlebot").1.length = 2 ∧
    (get_agent_actions s key "youbot_noplugin").1.length = 13 ∧
    (get_agent_actions s key "pr2_noplugin").1.length = 8 :=
  ⟨rfl, rfl, rfl, rfl⟩

/-- C4: for every starting state, `reset` sets `gripper_pos` to `(0,0,0)`,
`gripper_open` to true, and `speed` and `turning` to 0, and leaves
`wheel_step`, `gripper_step`, `speed_decay` and `turning_decay` unchanged. -/
theorem c4_reset_frame (s : KeyboardControl) :
    (reset s).gripper_pos = (0, 0, 0) ∧ (reset s).gripper_open = true ∧
    (reset s).speed = 0 ∧ (reset s).turning = 0 ∧
    (reset s).wheel_step = s.wheel_step ∧ (reset s).gripper_step = s.gripper_step ∧
    (reset s).speed_decay = s.speed_decay ∧ (reset s).turning_decay = s.turning_decay :=
  ⟨rfl, rfl, rfl, rfl, rfl, rfl, rfl, rfl⟩

theorem noKeyStep_speed (s : KeyboardControl) :
    (noKeyStep s).speed = s.speed * s.speed_decay := rfl

theorem noKeyStep_turning (s : KeyboardControl) :
    (noKeyStep s).turning = s.turning * s.turning_decay := rfl

theorem noKeyStep_iterate_speed_decay (s : KeyboardControl) (n : ℕ) :
    (noKeyStep^[n] s).speed_decay = s.speed_decay := by
  induction n with
  | zero => rfl
  | succ n ih => rw [Function.iterate_succ_apply']; exact ih

theorem noKeyStep_iterate_turning_decay (s : KeyboardControl) (n : ℕ) :
    (noKeyStep^[n] s).turning_decay = s.turning_decay := by
  induction n with
  | zero => rfl
  | succ n ih => rw [Function.iterate_succ_apply']; exact ih

theorem noKeyStep_iterate_speed (s : KeyboardControl) (n : ℕ) :
    (noKeyStep^[n] s).speed = s.speed * s.speed_decay ^ n := by
  induction n with
  | zero => simp
  | succ n ih =>
      rw [Function.iterate_succ_apply', noKeyStep_speed, ih, noKeyStep_iterate_speed_decay,
        pow_succ, mul_assoc]

theorem noKeyStep_iterate_turning (s : KeyboardControl) (n : ℕ) :
    (noKeyStep^[n] s).turning = s.turning * s.turning_decay ^ n := by
  induction n with
  | zero => simp
  | succ n ih =>
      rw [Function.iterate_succ_apply', noKeyStep_turning, ih, noKeyStep_iterate_turning_decay,
        pow_succ, mul_assoc]

theorem decay_tail (x d : ℚ) (hd0 : 0 < d) (hd1 : d < 1) (hx : x ≠ 0) (n : ℕ) :
    |x * d ^ (n + 1)| < |x * d ^ n| ∧ (0 < x * d ^ n ↔ 0 < x) ∧ x * d ^ n ≠ 0 := by
  have hp : (0 : ℚ) < d ^ n := pow_pos hd0 n
  refine ⟨?_, mul_pos_iff_of_pos_right hp, mul_ne_zero hx hp.ne'⟩
  rw [abs_mul, abs_mul, abs_pow, abs_pow, abs_of_pos hd0]
  exact mul_lt_mul_of_pos_left
    (pow_lt_pow_right_of_lt_one₀ hd0 hd1 (Nat.lt_succ_self n)) (abs_pos.mpr hx)

/-- C5: a call with no key pending multiplies `speed` and `turning` by their
decay factors; consequently, for a state with the constructor's decay factors
and nonzero `speed` (resp. `turning`), after any number of no-key calls the
next no-key call strictly decreases the magnitude, the sign never changes,
and the value never becomes exactly 0 (exact arithmetic). -/
theorem c5_decay_dynamics (s : KeyboardControl)
    (hd : s.speed_decay = 0.9) (ht : s.turning_decay = 0.5) (n : ℕ) :
    ((noKeyStep s).speed = s.speed * s.speed_decay ∧
     (noKeyStep s).turning = s.turning * s.turning_decay) ∧
    (s.speed ≠ 0 →
      |(noKeyStep^[n + 1] s).speed| < |(noKeyStep^[n] s).speed| ∧
      (0 < (noKeyStep^[n] s).speed ↔ 0 < s.speed) ∧
      (noKeyStep^[n] s).speed ≠ 0) ∧
    (s.turning ≠ 0 →
      |(noKeyStep^[n + 1] s).turning| < |(noKeyStep^[n] s).turning| ∧
      (0 < (noKeyStep^[n] s).turning ↔ 0 < s.turning) ∧
      (noKeyStep^[n] s).turning ≠ 0) := by
  refine ⟨⟨rfl, rfl⟩, fun hs => ?_, fun htn => ?_⟩
  · rw [noKeyStep_iterate_speed, noKeyStep_iterate_speed, hd]
    exact decay_tail s.speed 0.9 (by norm_num) (by norm_num) hs n
  · rw [noKeyStep_iterate_turning, noKeyStep_iterate_turning, ht]
    exact decay_tail s.turning 0.5 (by norm_num) (by norm_num) htn n

/-- Initial state with nonzero `speed` and `turning` for the C5 witness. -/
def c5s : KeyboardControl := { init with speed := 1, turning := -1 }

/-- C5 witness: the decay dynamics evaluated at a concrete state with
`speed = 1`, `turning = -1`, after one no-key call. -/
theorem c5_decay_witness :
    |(noKeyStep^[2] c5s).speed| < |(noKeyStep^[1] c5s).speed| ∧
    (0 < (noKeyStep^[1] c5s).speed ↔ 0 < c5s.speed) ∧
    (noKeyStep^[1] c5s).speed ≠ 0 ∧
    |(noKeyStep^[2] c5s).turning| < |(noKeyStep^[1] c5s).turning| ∧
    (noKeyStep^[1] c5s).turning ≠ 0 :=
  ⟨((c5_decay_dynamics c5s rfl rfl 1).2.1 one_ne_zero).1,
   ((c5_decay_dynamics c5s rfl rfl 1).2.1 one_ne_zero).2.1,
   ((c5_decay_dynamics c5s rfl rfl 1).2.1 one_ne_zero).2.2,
   ((c5_decay_dynamics c5s rfl rfl 1).2.2 (by norm_num [c5s, init])).1,
   ((c5_decay_dynamics c5s rfl rfl 1).2.2 (by norm_num [c5s, init])).2.2⟩

/-- C6: for every agent type other than the four supported names,
`get_agent_actions` returns the empty action vector and the conversion emits
exactly one informational log line naming the unrecognized type (the call is
total: no exception is part of the model). -/
theorem c6_unsupported_type (s : KeyboardControl) (key : Option Char) (t : String)
    (h1 : t ≠ "pioneer2dx_noplugin") (h2 : t ≠ "turtlebot")
    (h3 : t ≠ "youbot_noplugin") (h4 : t ≠ "pr2_noplugin") :
    (get_agent_actions s key t).1 = [] ∧
    convert_diagnostics t = ["agent type not supported yet: " ++ t] := by
  constructor
  · rw [gaa_fst]
    unfold convert_to_agent_action
    simp [h1, h2, h3, h4]
  · unfold convert_diagnostics
    simp [h1, h2, h3, h4]

/-- C6 witness: the unsupported branch evaluated at the concrete type
"icub". -/
theorem c6_unsupported_witness :
    (get_agent_actions init none "icub").1 = [] ∧
    convert_diagnostics "icub" = ["agent type not supported yet: " ++ "icub"] :=
  c6_unsupported_type init none "icub" (by decide) (by decide) (by decide) (by decide)

/-- C7: in every youbot action vector produced by `get_agent_actions`, the
elements at indices 7 and 8 are equal, equal `0.5` exactly when the
post-call state has `gripper_open = true` and `-0.5` otherwise, and take no
other value. -/
theorem c7_youbot_gripper (s : KeyboardControl) (key : Option Char) :
    ((get_agent_actions s key "youbot_noplugin").1.getD 7 0 =
      (get_agent_actions s key "youbot_noplugin").1.getD 8 0) ∧
    ((get_agent_actions s key "youbot_noplugin").1.getD 7 0 =
      if (step_state s key).gripper_open then 0.5 else -0.5) ∧
    ((get_agent_actions s key "youbot_noplugin").1.getD 7 0 = 0.5 ∨
      (get_agent_actions s key "youbot_noplugin").1.getD 7 0 = -0.5) := by
  cases hgo : (step_state s key).gripper_open <;>
    simp [gaa_fst, convert_youbot, hgo, List.getD]

/-- C8: a call sampling key "+" multiplies both `wheel_step` and
`gripper_step` by 1.5; a subsequent "i" call moves `gripper_pos[0]` by the
scaled gripper step and a subsequent "w" call (away from the zero-crossing
branch) adds the scaled wheel step; a second consecutive "+" call compounds
multiplicatively to `step0 * 1.5 * 1.5`. -/
theorem c8_step_scaling (s s1 : KeyboardControl) (h1 : s1 = step_state s (some '+')) :
    s1.wheel_step = s.wheel_step * 1.5 ∧
    s1.gripper_step = s.gripper_step * 1.5 ∧
    (step_state s1 (some 'i')).gripper_pos.1 = s1.gripper_pos.1 - s.gripper_step * 1.5 ∧
    (¬ s1.speed * s1.speed_decay < -0.01 →
      (step_state s1 (some 'w')).speed = s1.speed * s1.speed_decay + s.wheel_step * 1.5) ∧
    (step_state s1 (some '+')).wheel_step = s.wheel_step * 1.5 * 1.5 ∧
    (step_state s1 (some '+')).gripper_step = s.gripper_step * 1.5 * 1.5 := by
  subst h1
  refine ⟨rfl, rfl, rfl, ?_, rfl, rfl⟩
  intro hcond
  rw [step_state_w_speed, if_neg hcond]
  rfl

/-- C8 witness: the step scaling evaluated from the constructor state. -/
theorem c8_step_scaling_witness :
    (step_state init (some '+')).wheel_step = init.wheel_step * 1.5 ∧
    (step_state init (some '+')).gripper_step = init.gripper_step * 1.5 ∧
    (step_state (step_state init (some '+')) (some 'i')).gripper_pos.1 =
      (step_state init (some '+')).gripper_pos.1 - init.gripper_step * 1.5 ∧
    (step_state (step_state init (some '+')) (some 'w')).speed =
      (step_state init (some '+')).speed * (step_state init (some '+')).speed_decay +
        init.wheel_step * 1.5 ∧
    (step_state (step_state init (some '+')) (some '+')).wheel_step =
      init.wheel_step * 1.5 * 1.5 ∧
    (step_state (step_state init (some '+')) (some '+')).gripper_step =
      init.gripper_step * 1.5 * 1.5 := by
  obtain ⟨a, b, c, d, e, f⟩ := c8_step_scaling init (step_state init (some '+')) rfl
  refine ⟨a, b, c, d ?_, e, f⟩
  rw [step_state_plus_speed, step_state_plus_speed_decay]
  norm_num [init]

/-- C9 (implicit): the unsupported-agent-type branch is not atomic with
respect to state: for every agent type, including unsupported ones, the
state returned by `get_agent_actions` is the decayed-and-keyed successor
state, identical to the one a supported call would produce, even though the
returned action vector is empty; in particular a no-key call still decays
`speed` and `turning` and a key "e" call still toggles `gripper_open`. -/
theorem c9_unsupported_mutates_state (s : KeyboardControl) (key : Option Char) (t : String)
    (h1 : t ≠ "pioneer2dx_noplugin") (h2 : t ≠ "turtlebot")
    (h3 : t ≠ "youbot_noplugin") (h4 : t ≠ "pr2_noplugin") :
    (get_agent_actions s key t).2 = step_state s key ∧
    (get_agent_actions s key t).2 = (get_agent_actions s key "turtlebot").2 ∧
    (get_agent_actions s key t).1 = [] ∧
    (get_agent_actions s none t).2.speed = s.speed * s.speed_decay ∧
    (get_agent_actions s none t).2.turning = s.turning * s.turning_decay ∧
    (get_agent_actions s (some 'e') t).2.gripper_open = !s.gripper_open := by
  refine ⟨rfl, rfl, ?_, rfl, rfl, rfl⟩
  rw [gaa_fst]
  unfold convert_to_agent_action
  simp [h1, h2, h3, h4]

/-- C9 witness: the non-atomicity evaluated at the constructor state and the
concrete unsupported type "icub". -/
theorem c9_unsupported_mutates_witness :
    (get_agent_actions init (some 'w') "icub").2 = step_state init (some 'w') ∧
    (get_agent_actions init (some 'w') "icub").2 =
      (get_agent_actions init (some 'w') "turtlebot").2 ∧
    (get_agent_actions init (some 'w') "icub").1 = [] ∧
    (get_agent_actions init none "icub").2.speed = init.speed * init.speed_decay ∧
    (get_agent_actions init none "icub").2.turning = init.turning * init.turning_decay ∧
    (get_agent_actions init (some 'e') "icub").2.gripper_open = !init.gripper_open :=
  c9_unsupported_mutates_state init (some 'w') "icub"
    (by decide) (by decide) (by decide) (by decide)

/-- C10 (implicit): the third component of `gripper_pos` is an invariant 0:
it is 0 at construction, `reset` sets it to 0, every `get_agent_actions`
call preserves it (keys i/k/j/l only touch the first two components), and no
projection reads it (replacing it changes no action vector). -/
theorem c10_gripper_pos_z_invariant (s : KeyboardControl) (key : Option Char) (t : String)
    (q : ℚ) (h : s.gripper_pos.2.2 = 0) :
    init.gripper_pos.2.2 = 0 ∧
    (reset s).gripper_pos.2.2 = 0 ∧
    (get_agent_actions s key t).2.gripper_pos.2.2 = 0 ∧
    to_youbot_action { s with gripper_pos := (s.gripper_pos.1, s.gripper_pos.2.1, q) } =
      to_youbot_action s ∧
    to_diff_drive_action { s with gripper_pos := (s.gripper_pos.1, s.gripper_pos.2.1, q) } =
      to_diff_drive_action s ∧
    to_pr2_action { s with gripper_pos := (s.gripper_pos.1, s.gripper_pos.2.1, q) } =
      to_pr2_action s := by
  refine ⟨rfl, rfl, ?_, rfl, rfl, rfl⟩
  rw [gaa_snd]
  exact (apply_key_gp2 (decayed s) key).trans h

/-- C10 witness: the invariant evaluated at the constructor state, key "i",
the turtlebot type and the replacement value 5. -/
theorem c10_gripper_pos_z_witness :
    init.gripper_pos.2.2 = 0 ∧
    (reset init).gripper_pos.2.2 = 0 ∧
    (get_agent_actions init (some 'i') "turtlebot").2.gripper_pos.2.2 = 0 ∧
    to_youbot_action
        { init with gripper_pos := (init.gripper_pos.1, init.gripper_pos.2.1, 5) } =
      to_youbot_action init ∧
    to_diff_drive_action
        { init with gripper_pos := (init.gripper_pos.1, init.gripper_pos.2.1, 5) } =
      to_diff_drive_action init ∧
    to_pr2_action
        { init with gripper_pos := (init.gripper_pos.1, init.gripper_pos.2.1, 5) } =
      to_pr2_action init :=
  c10_gripper_pos_z_invariant init (some 'i') "turtlebot" 5 rfl
